import Mathlib

/-!
# Verification of the OAuth2 token-lifecycle subsystem of `app.py`

A shallow embedding of the token lifecycle and tenant-resolution code of the
Flask application in `src/app.py`.  Python session state becomes an explicit
`SessionState` record threaded through each handler; route handlers become
pure functions from the session (and an `Env` describing the remote APIs) to
an `Outcome` together with the updated session and the list of downstream API
calls they issued.  A Python function that may raise is modelled with an
`Option`/`Except` result, where `none`/`error` is the raising run.
-/

namespace XeroApp

/-- The OAuth2 token as stored in the session.  In `app.py` the token is the
raw mapping received from the authorization server (the callback stores the
response dict wholesale), so `access_token` is `Option String`: `none` models
a mapping in which the `access_token` key is absent (`response.get("access_token")
is None`).  The remaining fields follow the token shape of the data model. -/
structure Token where
  access_token : Option String
  refresh_token : String
  expires_at : Int
  scope : List String
  token_type : String
deriving Repr, DecidableEq

/-- A tenant connection record returned by the identity endpoint
(`identity_api.get_connections()` elements, with the two fields `app.py`
reads). -/
structure Connection where
  tenant_id : String
  tenant_type : String
deriving Repr, DecidableEq

/-- An invoice, reduced to the identifying field; the invoice body is opaque
to the token-lifecycle subsystem. -/
structure Invoice where
  invoice_id : String
deriving Repr, DecidableEq

/-- The per-browser session.  `token` is `session.get("token")`
(`none` models both "key absent" and "stored `None`"); `modified` is the
`session.modified` flag.  A stored token dict is always non-empty, so Python
truthiness of the stored value coincides with `Option.isSome`. -/
structure SessionState where
  token : Option Token
  modified : Bool
deriving Repr, DecidableEq

/-- The remote collaborators: the identity endpoint's connection list and the
accounting API.  `fetchInvoice tid id = none` models the run in which
`accounting_api.get_invoice(tid, invoice_id=id)` raises;
`some inv` the run in which it returns `inv`. -/
structure Env where
  connections : List Connection
  invoices : List Invoice
  fetchInvoice : Option String → String → Option Invoice

/-- A downstream API call issued by a handler. -/
inductive ApiCall where
  | getConnections
  | getInvoicesList
  | getInvoice (invoice_id : String)
deriving Repr, DecidableEq

/-- The observable outcome of a route handler. -/
inductive Outcome where
  | redirectLogin
  | redirectHome
  | accessDenied
  | raised
  | rendered (sub_title : String)
deriving Repr, DecidableEq

/-- `obtain_xero_oauth2_token` (app.py:70-71): `return session.get("token")`. -/
def obtain_xero_oauth2_token (s : SessionState) : Option Token :=
  s.token

/-- `store_xero_oauth2_token` (app.py:76-78): `session["token"] = token;
session.modified = True`. -/
def store_xero_oauth2_token (s : SessionState) (token : Option Token) : SessionState :=
  { s with token := token, modified := true }

/-- `xero_token_required` (app.py:81-90): redirect to login when the obtained
token is falsy (for the `Option Token` of this model: `none`, since every
stored token dict is non-empty), otherwise invoke the wrapped function
unchanged. -/
def xero_token_required (f : SessionState → Outcome × SessionState × List ApiCall)
    (s : SessionState) : Outcome × SessionState × List ApiCall :=
  match obtain_xero_oauth2_token s with
  | none => (Outcome.redirectLogin, s, [])
  | some _ => f s

/-- `get_xero_tenant_id` (app.py:490-498): `none` without an identity call if
no token; otherwise one `get_connections` call and the `tenant_id` of the
first connection whose `tenant_type` is `"ORGANISATION"` (implicit `None`
when the loop finds none). -/
def get_xero_tenant_id (env : Env) (s : SessionState) :
    Option String × List ApiCall :=
  match obtain_xero_oauth2_token s with
  | none => (none, [])
  | some _ =>
      ((env.connections.find? (fun c => c.tenant_type == "ORGANISATION")).map
          Connection.tenant_id,
        [ApiCall.getConnections])

/-- The spec's words for tenant selection (§4.4): scan the connections in
returned order and return the first whose `tenant_type` equals
`ORGANISATION`; absent when none match.  Stated independently of
`get_xero_tenant_id` for the refinement proof of C3. -/
def firstOrganisationTenant : List Connection → Option String
  | [] => none
  | c :: rest =>
      if c.tenant_type = "ORGANISATION" then some c.tenant_id
      else firstOrganisationTenant rest

/-- `index` (app.py:93-100): renders `dict(obtain_xero_oauth2_token() or {})`
as sorted JSON.  The rendered object is modelled as its sorted key/value
list; `None or {}` yields the empty dict. -/
def claimsDict : Option Token → List (String × String)
  | none => []
  | some t =>
      [("access_token", toString (repr t.access_token)),
       ("expires_at", toString t.expires_at),
       ("refresh_token", t.refresh_token),
       ("scope", String.intercalate " " t.scope),
       ("token_type", t.token_type)]

/-- `index` (app.py:93-100).  No gate, no downstream call; never raises. -/
def index (s : SessionState) : Outcome × List (String × String) :=
  (Outcome.rendered "Home | oauth token", claimsDict (obtain_xero_oauth2_token s))

/-- `logout` (app.py:457-460): store `None`, redirect home. -/
def logout (s : SessionState) : Outcome × SessionState :=
  (Outcome.redirectHome, store_xero_oauth2_token s none)

/-- `oauth_callback` (app.py:443-454).  `resp` is the result of
`xero.authorized_response()`: `Except.error ()` is the run in which it raises
(the handler prints and re-raises); `Except.ok none` a `None` response;
`Except.ok (some r)` a response mapping `r`.  On a response lacking
`access_token` the handler returns the access-denied page without storing;
otherwise it stores the response and redirects home. -/
def oauth_callback (resp : Except Unit (Option Token)) (s : SessionState) :
    Outcome × SessionState :=
  match resp with
  | Except.error _ => (Outcome.raised, s)
  | Except.ok response =>
      match response with
      | none => (Outcome.accessDenied, s)
      | some r =>
          if r.access_token = none then (Outcome.accessDenied, s)
          else (Outcome.redirectHome, store_xero_oauth2_token s (some r))

/-- `get_invoices` (app.py:104-118): gated route; resolves the tenant, issues
one invoice-list call and renders the count. -/
def get_invoices (env : Env) (s : SessionState) :
    Outcome × SessionState × List ApiCall :=
  xero_token_required
    (fun s =>
      let r := get_xero_tenant_id env s
      (Outcome.rendered
          ("Total invoices found: " ++ toString env.invoices.length),
        s, r.2 ++ [ApiCall.getInvoicesList]))
    s

/-- The fixed invoice id used by `check_invoice` and `check_invoices`
(app.py:350, app.py:415). -/
def checkInvoiceId : String :=
  "0e64a623-c2a1-446a-93ed-eb897f118cbc"

/-- The second fixed invoice id used by `check_invoices` (app.py:416). -/
def checkInvoiceId2 : String :=
  "7e024960-d582-452c-8b62-85308d99595b"

/-- `check_invoice` (app.py:346-371).  Note: this route carries no
`xero_token_required` decorator.  It resolves the tenant, attempts one
`get_invoice` fetch and renders an exists / does-not-exist page depending on
whether the fetch raised. -/
def check_invoice (env : Env) (s : SessionState) :
    Outcome × SessionState × List ApiCall :=
  let r := get_xero_tenant_id env s
  match env.fetchInvoice r.1 checkInvoiceId with
  | none =>
      (Outcome.rendered
          ("No invoice with invoice id " ++ checkInvoiceId ++ " exists."),
        s, r.2 ++ [ApiCall.getInvoice checkInvoiceId])
  | some _ =>
      (Outcome.rendered
          ("A invoice with invoice id " ++ checkInvoiceId ++ " exists."),
        s, r.2 ++ [ApiCall.getInvoice checkInvoiceId])

/-- `check_invoice_bool` (app.py:373-387): resolves the tenant, attempts one
fetch; `False` when the fetch raises, `True` when it returns; the bare
`except:` means no exception escapes. -/
def check_invoice_bool (env : Env) (s : SessionState) (invoice_id : String) :
    Bool × List ApiCall :=
  let r := get_xero_tenant_id env s
  match env.fetchInvoice r.1 invoice_id with
  | none => (false, r.2 ++ [ApiCall.getInvoice invoice_id])
  | some _ => (true, r.2 ++ [ApiCall.getInvoice invoice_id])

/-- The `for invoice_id in invoice_ids` loop of `check_invoices_bool`
(app.py:397-406): one fetch attempt per id, appending the id exactly when the
fetch returned. -/
def check_invoices_loop (env : Env) (tid : Option String) :
    List String → List String × List ApiCall
  | [] => ([], [])
  | invoice_id :: rest =>
      let r := check_invoices_loop env tid rest
      match env.fetchInvoice tid invoice_id with
      | none => (r.1, ApiCall.getInvoice invoice_id :: r.2)
      | some _ => (invoice_id :: r.1, ApiCall.getInvoice invoice_id :: r.2)

/-- `check_invoices_bool` (app.py:390-407). -/
def check_invoices_bool (env : Env) (s : SessionState) (invoice_ids : List String) :
    List String × List ApiCall :=
  let t := get_xero_tenant_id env s
  let r := check_invoices_loop env t.1 invoice_ids
  (r.1, t.2 ++ r.2)

/-- The render loop of `check_invoices` (app.py:421-427): re-fetches every id
reported as existing, outside any `try`, so a raising fetch propagates. -/
def check_invoices_render (env : Env) (tid : Option String) :
    List String → Option (String × List ApiCall)
  | [] => some ("", [])
  | invoice_id :: rest =>
      match env.fetchInvoice tid invoice_id with
      | none => none
      | some _ =>
          match check_invoices_render env tid rest with
          | none => none
          | some r =>
              some (" " ++ invoice_id ++ r.1,
                ApiCall.getInvoice invoice_id :: r.2)

/-- `check_invoices` (app.py:411-434).  Note: this route carries no
`xero_token_required` decorator.  It resolves the tenant, filters the two
fixed ids through `check_invoices_bool` and renders each surviving id. -/
def check_invoices (env : Env) (s : SessionState) :
    Outcome × SessionState × List ApiCall :=
  let t := get_xero_tenant_id env s
  let b := check_invoices_bool env s [checkInvoiceId, checkInvoiceId2]
  match check_invoices_render env t.1 b.1 with
  | none => (Outcome.raised, s, t.2 ++ b.2)
  | some r =>
      (Outcome.rendered ("the invoice/s " ++ r.1 ++ " exsist"),
        s, t.2 ++ b.2 ++ r.2)

/-- `refresh_token` route (app.py:477-487): gated; forces a refresh exchange
via `api_client.refresh_oauth2_token()` and renders old/new token.
`refreshResult` is the exchange's outcome: `Except.error ()` the run in which
the authorization server rejects the refresh token and the SDK raises — the
handler has no `try`, so the exception propagates.  Modelled from the spec:
the SDK's `refresh_oauth2_token` is not part of `src/`; per §4.2 a successful
exchange persists the new token through the registered saver
(`store_xero_oauth2_token`). -/
def refresh_token_route (refreshResult : Except Unit Token) (s : SessionState) :
    Outcome × SessionState × List ApiCall :=
  xero_token_required
    (fun s =>
      match refreshResult with
      | Except.error _ => (Outcome.raised, s, [])
      | Except.ok newToken =>
          (Outcome.rendered "token refreshed",
            store_xero_oauth2_token s (some newToken), []))
    s

/-- Modelled from the spec: the Token Refresh Gate of §4.2, which lives in
the vendor SDK (`api_client`), not in `src/`.  Before an outgoing call with
stored token `t`: if `expires_at` has not passed, use `t` unchanged with zero
exchanges; if it has passed, perform one refresh exchange (`exchange t`) and
persist the new token through the registered saver.  Returns
(session after the gate, token used for the call, number of exchanges). -/
def sdk_refresh_gate (now : Int) (exchange : Token → Token) (t : Token)
    (s : SessionState) : SessionState × Token × Nat :=
  if t.expires_at < now then
    let t' := exchange t
    (store_xero_oauth2_token s (some t'), t', 1)
  else (s, t, 0)

/-- A protected operation as run by the application: the presence gate of
`xero_token_required` followed by a downstream call through the SDK's refresh
gate (`sdk_refresh_gate`, modelled from the spec §4.2).  Returns the outcome,
the session after the call and the number of refresh exchanges performed. -/
def protected_api_operation (now : Int) (exchange : Token → Token)
    (s : SessionState) : Outcome × SessionState × Nat :=
  match obtain_xero_oauth2_token s with
  | none => (Outcome.redirectLogin, s, 0)
  | some t =>
      let g := sdk_refresh_gate now exchange t s
      (Outcome.rendered "api call", g.1, g.2.2)

/-! ## Concrete fixtures -/

/-- A fresh session: no token stored. -/
def emptySession : SessionState :=
  { token := none, modified := false }

/-- A sample well-formed token. -/
def sampleToken : Token :=
  { access_token := some "at-1", refresh_token := "rt-1", expires_at := 1000,
    scope := ["openid"], token_type := "Bearer" }

/-- A token whose expiry lies in the past relative to time 0. -/
def expiredToken : Token :=
  { sampleToken with expires_at := -5 }

/-- A session holding `sampleToken`. -/
def sessionWithToken : SessionState :=
  { token := some sampleToken, modified := false }

/-- A remote environment with no connections and every invoice fetch
raising. -/
def env0 : Env :=
  { connections := [], invoices := [], fetchInvoice := fun _ _ => none }

/-- The identity response of the spec's worked example:
`[{id:"A",type:"BANK"}, {id:"B",type:"ORGANISATION"}, {id:"C",type:"ORGANISATION"}]`. -/
def envABC : Env :=
  { connections :=
      [{ tenant_id := "A", tenant_type := "BANK" },
       { tenant_id := "B", tenant_type := "ORGANISATION" },
       { tenant_id := "C", tenant_type := "ORGANISATION" }],
    invoices := [], fetchInvoice := fun _ _ => none }

/-- The identity response `[{id:"A",type:"BANK"}]` with no organization. -/
def envBankOnly : Env :=
  { connections := [{ tenant_id := "A", tenant_type := "BANK" }],
    invoices := [], fetchInvoice := fun _ _ => none }

/-! ## Helper lemmas -/

/-- `List.find?` with the ORGANISATION test, projected to the tenant id,
agrees with the spec-worded first-match scan. -/
theorem find_org_map_eq (l : List Connection) :
    (l.find? (fun c => c.tenant_type == "ORGANISATION")).map Connection.tenant_id =
      firstOrganisationTenant l := by
  induction l with
  | nil => rfl
  | cons c rest ih =>
      by_cases h : c.tenant_type = "ORGANISATION"
      · rw [List.find?_cons_of_pos _ (by simp [h])]
        simp [firstOrganisationTenant, h]
      · rw [List.find?_cons_of_neg _ (by simp [h])]
        simp [firstOrganisationTenant, h, ih]

/-- The per-id loop of `check_invoices_bool` keeps exactly the ids whose
fetch returned, in order. -/
theorem check_invoices_loop_fst (env : Env) (tid : Option String)
    (ids : List String) :
    (check_invoices_loop env tid ids).1 =
      ids.filter (fun i => (env.fetchInvoice tid i).isSome) := by
  induction ids with
  | nil => rfl
  | cons i rest ih =>
      cases h : env.fetchInvoice tid i <;>
        simp [check_invoices_loop, h, ih]

/-! ## Claim theorems -/

/-- Claim C1: for every session holding a token whose expiry is in the past,
a protected operation performs exactly one refresh exchange before the
downstream call, and the session token stored after the call equals the new
token returned by that exchange (the refresh is persisted). -/
theorem c1_expired_token_refresh_persisted (now : Int) (exchange : Token → Token)
    (s : SessionState) (t : Token)
    (hs : obtain_xero_oauth2_token s = some t)
    (hexp : t.expires_at < now) :
    protected_api_operation now exchange s =
      (Outcome.rendered "api call",
        store_xero_oauth2_token s (some (exchange t)), 1) ∧
    obtain_xero_oauth2_token (protected_api_operation now exchange s).2.1 =
      some (exchange t) := by
  have hs2 : s.token = some t := hs
  simp [protected_api_operation, obtain_xero_oauth2_token, hs2,
    sdk_refresh_gate, hexp, store_xero_oauth2_token]

/-- Witness for C1 at a concrete expired token and time 0. -/
theorem c1_expired_token_refresh_persisted_holds :
    obtain_xero_oauth2_token
        (protected_api_operation 0 (fun t => { t with expires_at := 100 })
          { token := some expiredToken, modified := false }).2.1 =
      some { expiredToken with expires_at := 100 } :=
  (c1_expired_token_refresh_persisted 0 (fun t => { t with expires_at := 100 })
    { token := some expiredToken, modified := false } expiredToken rfl
    (by decide)).2

/-- Claim C2 counterexample: `check_invoice` performs a downstream invoicing
call yet is not guarded; on a session with no token it renders a page instead
of redirecting to login and issues one downstream call. -/
theorem c2_unguarded_route_counterexample :
    (check_invoice env0 emptySession).1 ≠ Outcome.redirectLogin ∧
    (check_invoice env0 emptySession).2.2 = [ApiCall.getInvoice checkInvoiceId] := by
  decide

/-- Claim C2 as amended: for every session with no stored token, invoking any
operation guarded by `xero_token_required` (for example the invoice-listing
route) yields a redirect to the login entry point, leaves the session
unchanged and issues zero downstream calls. -/
theorem c2_amended_gate_blocks_without_token :
    (∀ (f : SessionState → Outcome × SessionState × List ApiCall)
        (s : SessionState),
      xero_token_required f { s with token := none } =
        (Outcome.redirectLogin, { s with token := none }, [])) ∧
    (∀ (env : Env) (s : SessionState),
      get_invoices env { s with token := none } =
        (Outcome.redirectLogin, { s with token := none }, [])) :=
  ⟨fun _ _ => rfl, fun _ _ => rfl⟩

/-- Claim C3: tenant resolution is deterministic — absent without a token,
otherwise the first connection (in returned order) whose type is
ORGANISATION, absent when none matches; on the spec's worked example it
returns "B" and on the bank-only list it returns absent. -/
theorem c3_tenant_resolution_first_organisation :
    (∀ (env : Env) (s : SessionState),
      (get_xero_tenant_id env s).1 =
        if (obtain_xero_oauth2_token s).isSome then
          firstOrganisationTenant env.connections
        else none) ∧
    (get_xero_tenant_id envABC sessionWithToken).1 = some "B" ∧
    (get_xero_tenant_id envBankOnly sessionWithToken).1 = none := by
  refine ⟨fun env s => ?_, by decide, by decide⟩
  cases h : obtain_xero_oauth2_token s <;>
    simp [get_xero_tenant_id, h, find_org_map_eq]

/-- Claim C4: a callback whose authorization response is absent or lacks the
access_token field stores no token (session unchanged), reports access
denied, and does not redirect to the home page. -/
theorem c4_callback_denied_stores_nothing :
    (∀ s : SessionState,
      oauth_callback (Except.ok none) s = (Outcome.accessDenied, s)) ∧
    (∀ (s : SessionState) (r : Token),
      oauth_callback (Except.ok (some { r with access_token := none })) s =
        (Outcome.accessDenied, s)) ∧
    Outcome.accessDenied ≠ Outcome.redirectHome := by
  refine ⟨fun s => rfl, fun s r => ?_, by decide⟩
  simp [oauth_callback]

/-- Claim C5: the gate is a pure presence check — whenever the session holds
a token, whatever its expiry, the wrapped operation is invoked on the
unchanged session and its result is returned unchanged. -/
theorem c5_gate_is_pure_presence_check
    (f : SessionState → Outcome × SessionState × List ApiCall)
    (s : SessionState) (t : Token)
    (hs : obtain_xero_oauth2_token s = some t) :
    xero_token_required f s = f s := by
  simp [xero_token_required, hs]

/-- Witness for C5: a token whose expiry already passed still passes the
gate unchanged. -/
theorem c5_gate_is_pure_presence_check_holds :
    xero_token_required (fun s => (Outcome.rendered "ok", s, []))
        { token := some expiredToken, modified := false } =
      (Outcome.rendered "ok",
        { token := some expiredToken, modified := false }, []) :=
  c5_gate_is_pure_presence_check _ _ expiredToken rfl

/-- Claim C6: logout followed immediately by any protected operation always
redirects to login: the cleared session passes neither the bare gate nor the
gated downstream operation. -/
theorem c6_logout_then_protected_redirects :
    (∀ (f : SessionState → Outcome × SessionState × List ApiCall)
        (s : SessionState),
      xero_token_required f (logout s).2 =
        (Outcome.redirectLogin, (logout s).2, [])) ∧
    (∀ (now : Int) (exchange : Token → Token) (s : SessionState),
      protected_api_operation now exchange (logout s).2 =
        (Outcome.redirectLogin, (logout s).2, 0)) :=
  ⟨fun _ _ => rfl, fun _ _ _ => rfl⟩

/-- Claim C7: Token Store round-trip — storing any token value and
immediately retrieving it returns exactly what was stored, with no field
loss. -/
theorem c7_token_store_round_trip :
    ∀ (s : SessionState) (t : Option Token),
      obtain_xero_oauth2_token (store_xero_oauth2_token s t) = t :=
  fun _ _ => rfl

/-- Claim C8 counterexample: an authorization-code exchange failure in the
OAuth callback is re-raised and propagates as a raw uncaught error — it is
not resolved via any redirect. -/
theorem c8_callback_raises_counterexample :
    oauth_callback (Except.error ()) emptySession = (Outcome.raised, emptySession) ∧
    Outcome.raised ≠ Outcome.redirectLogin ∧
    Outcome.raised ≠ Outcome.redirectHome := by
  decide

/-- Claim C8 as amended: the no-token condition is resolved by the gate via
redirect to login, and a callback response lacking access_token is reported
as an access-denied page without a raw error; but an exception during the
callback token exchange propagates uncaught, and a rejected refresh in the
forced-refresh route propagates uncaught as well. -/
theorem c8_amended_auth_error_surface :
    (∀ (f : SessionState → Outcome × SessionState × List ApiCall)
        (s : SessionState),
      xero_token_required f { s with token := none } =
        (Outcome.redirectLogin, { s with token := none }, [])) ∧
    (∀ s : SessionState,
      oauth_callback (Except.ok none) s = (Outcome.accessDenied, s)) ∧
    (∀ s : SessionState,
      oauth_callback (Except.error ()) s = (Outcome.raised, s)) ∧
    (∀ (s : SessionState) (t : Token),
      refresh_token_route (Except.error ()) { s with token := some t } =
        (Outcome.raised, { s with token := some t }, [])) :=
  ⟨fun _ _ => rfl, fun _ => rfl, fun _ => rfl, fun _ _ => rfl⟩

/-- Claim C9: the existence-check helpers treat any raising fetch as "not
found": `check_invoice_bool` returns false exactly when the fetch raises,
`check_invoices_bool` keeps exactly the non-raising ids, and both are total
(no exception escapes). -/
theorem c9_existence_checks_swallow_failures :
    ∀ (env : Env) (s : SessionState) (invoice_id : String) (ids : List String),
      (check_invoice_bool env s invoice_id).1 =
          (env.fetchInvoice (get_xero_tenant_id env s).1 invoice_id).isSome ∧
      (check_invoices_bool env s ids).1 =
          ids.filter
            (fun i => (env.fetchInvoice (get_xero_tenant_id env s).1 i).isSome) := by
  intro env s invoice_id ids
  constructor
  · cases h : env.fetchInvoice (get_xero_tenant_id env s).1 invoice_id <;>
      simp [check_invoice_bool, h]
  · simp [check_invoices_bool, check_invoices_loop_fst]

/-- Claim C10: the home page is total — it always renders (never redirects
or raises), and with no stored token it renders the claims of an empty
object. -/
theorem c10_index_total_empty_claims :
    (∀ s : SessionState, (index s).1 = Outcome.rendered "Home | oauth token") ∧
    (∀ s : SessionState, (index { s with token := none }).2 = []) :=
  ⟨fun _ => rfl, fun _ => rfl⟩

end XeroApp
